import Mathlib

/-!
Verification of the Authentication and Authorization subsystem of
ai-collabspec: a shallow embedding of the AuthService, the auth
middleware (token extraction, role checks, rate limiting) and the
auth routes, with theorems about the spec properties.

Sources embedded:
- apps/backend/src/middleware/auth.ts (extractToken, authenticate,
  authRateLimit)
- the AuthService class (register, login, refreshToken,
  verifyAccessToken, generateTokens, hasPermission, canAccessResource)
- the auth routes (error mapping to HTTP responses)
- UserRepository.findByEmail / BaseRepository.findById

Machine integers do not overflow in the modelled code paths, so times
and counters are Nat (millisecond / second timestamps). The jsonwebtoken
and bcryptjs libraries are modelled symbolically: a signed token is the
pair of its payload and the signing secret (HS256 signing is
deterministic, so token equality is payload-and-secret equality), and a
bcrypt digest records the hashed password (verification succeeds exactly
on the original password; collisions are not modelled). Zod string
refinements (uuid, email) are modelled by executable format checks.
-/

namespace CollabSpec

/-- UserRole enum of the shared package: developer, designer,
product-manager, stakeholder. -/
inductive UserRole
  | developer
  | designer
  | productManager
  | stakeholder
deriving DecidableEq

/-- Model of a bcryptjs digest: records the hashed password and the cost
factor. Salted collisions are not modelled. -/
structure BcryptDigest where
  password : String
  cost : Nat
deriving DecidableEq

/-- Model of bcrypt.hash. -/
def bcryptHash (password : String) (cost : Nat) : BcryptDigest :=
  ⟨password, cost⟩

/-- Model of bcrypt.compare: succeeds exactly on the hashed password. -/
def bcryptCompare (password : String) (digest : BcryptDigest) : Bool :=
  password == digest.password

/-- Hex digit test, used by the uuid format check. -/
def isHexDigit (c : Char) : Bool :=
  c.isDigit || (decide ('a' ≤ c) && decide (c ≤ 'f')) || (decide ('A' ≤ c) && decide (c ≤ 'F'))

/-- Split a character list on a separator (structural-recursion model of
String.split, which itself does not reduce in the kernel). -/
def splitOnChar (sep : Char) : List Char → List (List Char)
  | [] => [[]]
  | c :: cs =>
      match splitOnChar sep cs with
      | [] => if c = sep then [[], []] else [[c]]
      | g :: gs => if c = sep then [] :: g :: gs else (c :: g) :: gs

/-- Model of the zod uuid string refinement: five dash-separated hex
groups of lengths 8-4-4-4-12. -/
def isUuid (s : String) : Bool :=
  match splitOnChar ('-') s.data with
  | [a, b, c, d, e] =>
      (a.length == 8) && (b.length == 4) && (c.length == 4) && (d.length == 4) &&
      (e.length == 12) && (a ++ b ++ c ++ d ++ e).all isHexDigit
  | _ => false

/-- Model of the zod email string refinement: one at-sign, non-empty
local part, dotted non-empty domain labels. -/
def isEmailAddr (s : String) : Bool :=
  match splitOnChar ('@') s.data with
  | [l, d] =>
      (!l.isEmpty) && ((splitOnChar ('.') d).all (fun g => !g.isEmpty)) &&
      decide (2 ≤ (splitOnChar ('.') d).length)
  | _ => false

/-- Per-character lower-casing (model of the toLowerCase call sites;
String.map does not reduce in the kernel). -/
def toLowerCase (s : String) : String :=
  ⟨s.data.map Char.toLower⟩

/-- Bearer-prefix test of the Authorization header (model of
String.startsWith). -/
def startsWithStr (s p : String) : Bool :=
  s.data.take p.data.length == p.data

/-- Drop the first n characters (model of String.substring at a
character offset). -/
def dropStr (s : String) (n : Nat) : String :=
  ⟨s.data.drop n⟩

/-- Wire-level JWT payload: the union of the fields the service ever
signs. A field absent from a concrete token is none; extras lists the
names of unknown extra fields a token may carry. -/
structure WirePayload where
  userId : Option String := none
  email : Option String := none
  role : Option UserRole := none
  timezone : Option String := none
  sessionId : Option String := none
  tokenVersion : Option Nat := none
  iat : Option Nat := none
  exp : Option Nat := none
  extras : List String := []
deriving DecidableEq

/-- Model of a signed JWT: HS256 signing is deterministic, so a token is
determined by its payload and the signing secret. -/
structure Token where
  payload : WirePayload
  secret : String
deriving DecidableEq

/-- Model of jwt.sign. -/
def jwtSign (payload : WirePayload) (secret : String) : Token :=
  ⟨payload, secret⟩

/-- Failure kinds of jwt.verify: JsonWebTokenError (signature) and
TokenExpiredError. -/
inductive JwtVerifyError
  | invalidSignature
  | tokenExpired
deriving DecidableEq

/-- Model of jwt.verify: checks the signature (secret match), then the
embedded exp claim against the clock; a token without exp never
expires (jsonwebtoken semantics). -/
def jwtVerify (t : Token) (secret : String) (now : Nat) : Except JwtVerifyError WirePayload :=
  if t.secret ≠ secret then .error .invalidSignature
  else
    match t.payload.exp with
    | some e => if e ≤ now then .error .tokenExpired else .ok t.payload
    | none => .ok t.payload

/-- Parsed access-token claims (JWTPayload of the service). -/
structure JWTPayload where
  userId : String
  email : String
  role : UserRole
  timezone : String
  sessionId : String
  iat : Nat
  exp : Nat
deriving DecidableEq

/-- JWTPayloadSchema.parse: requires userId (uuid), email (email), role,
timezone, sessionId (uuid), iat, exp; unknown extra fields are stripped,
not rejected (zod default object mode). -/
def JWTPayloadSchemaParse (p : WirePayload) : Option JWTPayload :=
  match p.userId, p.email, p.role, p.timezone, p.sessionId, p.iat, p.exp with
  | some u, some e, some r, some tz, some s, some i, some x =>
      if isUuid u && isEmailAddr e && isUuid s then some ⟨u, e, r, tz, s, i, x⟩ else none
  | _, _, _, _, _, _, _ => none

/-- Parsed refresh-token claims (RefreshTokenPayload of the service). -/
structure RefreshTokenPayload where
  userId : String
  sessionId : String
  tokenVersion : Nat
  iat : Nat
  exp : Nat
deriving DecidableEq

/-- RefreshTokenPayloadSchema.parse: requires userId (uuid), sessionId
(uuid), tokenVersion, iat, exp; unknown extra fields are stripped. -/
def RefreshTokenPayloadSchemaParse (p : WirePayload) : Option RefreshTokenPayload :=
  match p.userId, p.sessionId, p.tokenVersion, p.iat, p.exp with
  | some u, some s, some v, some i, some x =>
      if isUuid u && isUuid s then some ⟨u, s, v, i, x⟩ else none
  | _, _, _, _, _ => none

/-- Environment configuration read by the AuthService constructor.
Durations are modelled in seconds (source strings 15m / 7d). -/
structure AuthEnv where
  JWT_SECRET : Option String := none
  JWT_REFRESH_SECRET : Option String := none
  JWT_EXPIRES_IN : Option Nat := none
  JWT_REFRESH_EXPIRES_IN : Option Nat := none
  BCRYPT_ROUNDS : Option Nat := none

/-- JavaScript falsy-or on env strings: an unset or empty variable falls
back to the default. -/
def envOrElse (v : Option String) (d : String) : String :=
  match v with
  | some s => if s = "" then d else s
  | none => d

/-- Configured AuthService instance. -/
structure AuthService where
  JWT_SECRET : String
  JWT_REFRESH_SECRET : String
  JWT_EXPIRES_IN : Nat
  JWT_REFRESH_EXPIRES_IN : Nat
  BCRYPT_ROUNDS : Nat
deriving DecidableEq

/-- AuthService constructor: JWT_SECRET is required (falsy value throws,
modelled as none); JWT_REFRESH_SECRET defaults to JWT_SECRET when unset
or empty; TTL defaults 15 minutes / 7 days; cost default 12. -/
def mkAuthService (env : AuthEnv) : Option AuthService :=
  match env.JWT_SECRET with
  | none => none
  | some s =>
      if s = "" then none
      else some {
        JWT_SECRET := s
        JWT_REFRESH_SECRET := envOrElse env.JWT_REFRESH_SECRET s
        JWT_EXPIRES_IN := env.JWT_EXPIRES_IN.getD 900
        JWT_REFRESH_EXPIRES_IN := env.JWT_REFRESH_EXPIRES_IN.getD 604800
        BCRYPT_ROUNDS := env.BCRYPT_ROUNDS.getD 12 }

/-- Input of generateTokens. -/
structure TokenGenInput where
  userId : String
  email : String
  role : UserRole
  timezone : String
  sessionId : String
deriving DecidableEq

/-- AuthTokens returned by the service. -/
structure AuthTokens where
  accessToken : Token
  refreshToken : Token
  expiresIn : Nat
  tokenType : String
deriving DecidableEq

/-- AuthService.generateTokens: signs the access payload with JWT_SECRET
for JWT_EXPIRES_IN, and the refresh payload (userId, sessionId,
tokenVersion 1) with JWT_REFRESH_SECRET for 30 days when longLived
(rememberMe) else JWT_REFRESH_EXPIRES_IN; expiresIn is the access exp
minus now. -/
def generateTokens (svc : AuthService) (payload : TokenGenInput)
    (longLived : Bool) (now : Nat) : AuthTokens :=
  let accessTokenPayload : WirePayload :=
    { userId := some payload.userId, email := some payload.email,
      role := some payload.role, timezone := some payload.timezone,
      sessionId := some payload.sessionId,
      iat := some now, exp := some (now + svc.JWT_EXPIRES_IN) }
  let refreshExpiry := if longLived then 30 * 24 * 60 * 60 else svc.JWT_REFRESH_EXPIRES_IN
  let refreshTokenPayload : WirePayload :=
    { userId := some payload.userId, sessionId := some payload.sessionId,
      tokenVersion := some 1,
      iat := some now, exp := some (now + refreshExpiry) }
  { accessToken := jwtSign accessTokenPayload svc.JWT_SECRET
    refreshToken := jwtSign refreshTokenPayload svc.JWT_REFRESH_SECRET
    expiresIn := svc.JWT_EXPIRES_IN
    tokenType := "Bearer" }

/-- AuthService.verifyAccessToken: jwt.verify with JWT_SECRET, then
JWTPayloadSchema.parse; every failure is caught and rethrown as the one
generic Invalid access token error. -/
def verifyAccessToken (svc : AuthService) (token : Token) (now : Nat) :
    Except String JWTPayload :=
  match jwtVerify token svc.JWT_SECRET now with
  | .error _ => .error ("Invalid access token")
  | .ok p =>
      match JWTPayloadSchemaParse p with
      | none => .error ("Invalid access token")
      | some claims => .ok claims

/-- Verification phase of AuthService.refreshToken: jwt.verify with
JWT_REFRESH_SECRET then RefreshTokenPayloadSchema.parse; failures
surface as the generic Invalid refresh token error (the catch-all of
refreshToken). -/
def verifyRefreshClaims (svc : AuthService) (token : Token) (now : Nat) :
    Except String RefreshTokenPayload :=
  match jwtVerify token svc.JWT_REFRESH_SECRET now with
  | .error _ => .error ("Invalid refresh token")
  | .ok p =>
      match RefreshTokenPayloadSchemaParse p with
      | none => .error ("Invalid refresh token")
      | some rp => .ok rp

/-- Database user row (the fields of UserEntitySchema used by the auth
subsystem). Timestamps are Nat; fields not read by the auth code
(avatar, bio, skills, preferences) are omitted. -/
structure DBUser where
  id : String
  name : String
  email : String
  password_hash : BcryptDigest
  role : UserRole
  timezone : String
  is_active : Bool
  email_verified : Bool
  last_seen : Option Nat
deriving DecidableEq

/-- The users table, as the list of its rows. -/
abbrev UserStore := List DBUser

/-- UserRepository.findByEmail: SELECT with email = lower(input) AND
is_active = true; the first matching row. -/
def findByEmail (store : UserStore) (email : String) : Option DBUser :=
  (store.filter (fun u => u.email == toLowerCase email && u.is_active)).head?

/-- BaseRepository.findById: SELECT with id = input (no active
filter). -/
def findById (store : UserStore) (id : String) : Option DBUser :=
  (store.filter (fun u => u.id == id)).head?

/-- UserRepository.updateLastSeen: sets last_seen of the given row. -/
def updateLastSeen (store : UserStore) (id : String) (now : Nat) : UserStore :=
  store.map (fun u => if u.id == id then { u with last_seen := some now } else u)

/-- BaseRepository.updateById restricted to the timezone column (the only
update the login path performs). -/
def updateTimezoneById (store : UserStore) (id : String) (tz : String) : UserStore :=
  store.map (fun u => if u.id == id then { u with timezone := tz } else u)

/-- Public user view (AuthenticatedUser) returned by the service. -/
structure AuthenticatedUser where
  id : String
  name : String
  email : String
  role : UserRole
  timezone : String
  isActive : Bool
  emailVerified : Bool
  lastSeen : Option Nat
deriving DecidableEq

/-- AuthService.mapToAuthenticatedUser. -/
def mapToAuthenticatedUser (u : DBUser) : AuthenticatedUser :=
  ⟨u.id, u.name, u.email, u.role, u.timezone, u.is_active, u.email_verified, u.last_seen⟩

/-- Service-level failure: a zod validation error or a thrown Error with
its message (the code signals failures by throwing; routes match on the
message). -/
inductive ServiceErr
  | zod
  | err (message : String)
deriving DecidableEq

/-- LoginRequestSchema validity: email format, max length 254, non-empty
password. -/
def LoginRequestSchemaCheck (email password : String) : Bool :=
  isEmailAddr email && decide (email.length ≤ 254) && decide (1 ≤ password.length)

/-- Login request body after zod parsing (rememberMe defaults false). -/
structure LoginRequest where
  email : String
  password : String
  timezone : Option String := none
  rememberMe : Bool := false

/-- AuthService.login: find the user by email (the SQL already filters
on is_active), reject unknown email, inactive account, or a password
that does not verify; on success optionally update the stored timezone,
mint the given fresh sessionId into a token pair (rememberMe extends
the refresh TTL) and record presence. The fresh sessionId and clock are
parameters (crypto.randomUUID and Date.now oracles). -/
def login (svc : AuthService) (store : UserStore) (data : LoginRequest)
    (sessionId : String) (now : Nat) :
    Except ServiceErr (AuthenticatedUser × AuthTokens × UserStore) :=
  if !LoginRequestSchemaCheck data.email data.password then .error .zod
  else
    match findByEmail store data.email with
    | none => .error (.err ("Invalid email or password"))
    | some user =>
        if !user.is_active then .error (.err ("Account is deactivated"))
        else if !bcryptCompare data.password user.password_hash then
          .error (.err ("Invalid email or password"))
        else
          let tzChanged := match data.timezone with
            | some tz => tz != "" && tz != user.timezone
            | none => false
          let user1 := if tzChanged then { user with timezone := data.timezone.getD user.timezone } else user
          let store1 := if tzChanged then updateTimezoneById store user.id (data.timezone.getD user.timezone) else store
          let tokens := generateTokens svc
            ⟨user1.id, user1.email, user1.role, user1.timezone, sessionId⟩
            data.rememberMe now
          .ok (mapToAuthenticatedUser user1, tokens, updateLastSeen store1 user1.id now)

/-- RegisterRequestSchema validity: name 1..100, email format and max
254, password 8..128. -/
def RegisterRequestSchemaCheck (name email password : String) : Bool :=
  decide (1 ≤ name.length) && decide (name.length ≤ 100) &&
  isEmailAddr email && decide (email.length ≤ 254) &&
  decide (8 ≤ password.length) && decide (password.length ≤ 128)

/-- Register request body after zod parsing (role defaults developer,
timezone defaults UTC). -/
structure RegisterRequest where
  name : String
  email : String
  password : String
  role : UserRole := .developer
  timezone : String := "UTC"

/-- The row AuthService.register inserts: lower-cased email, bcrypt
digest of the password, database defaults active and unverified. The
generated row id is a parameter (gen_random_uuid oracle). -/
def registerNewUser (svc : AuthService) (data : RegisterRequest) (newId : String) : DBUser :=
  { id := newId, name := data.name, email := toLowerCase data.email,
    password_hash := bcryptHash data.password svc.BCRYPT_ROUNDS,
    role := data.role, timezone := data.timezone,
    is_active := true, email_verified := false, last_seen := none }

/-- AuthService.register: reject when findByEmail (active record under
the lower-cased email) hits; otherwise hash and insert the new row. The
users table declares email UNIQUE, so when a row the active-only
duplicate check missed (an inactive one, reachable via deactivateUser)
still holds the lower-cased email, the INSERT throws a unique-violation
error, which is neither a ZodError nor the duplicate-email message. On
success, mint a fresh session and token pair and record presence. -/
def register (svc : AuthService) (store : UserStore) (data : RegisterRequest)
    (newId sessionId : String) (now : Nat) :
    Except ServiceErr (AuthenticatedUser × AuthTokens × UserStore) :=
  if !RegisterRequestSchemaCheck data.name data.email data.password then .error .zod
  else
    match findByEmail store data.email with
    | some _ => .error (.err ("Email already registered"))
    | none =>
        if store.any (fun u => u.email == toLowerCase data.email) then
          .error (.err ("duplicate key value violates unique constraint"))
        else
          let newUser := registerNewUser svc data newId
          let tokens := generateTokens svc
            ⟨newUser.id, newUser.email, newUser.role, newUser.timezone, sessionId⟩
            false now
          .ok (mapToAuthenticatedUser newUser, tokens,
               updateLastSeen (store ++ [newUser]) newUser.id now)

/-- AuthService.refreshToken: verify the refresh token and its claim
schema, require the referenced user to still exist and be active, then
issue a new pair under the same sessionId and record presence; every
failure is rethrown as the generic Invalid refresh token error. -/
def refreshTokenOp (svc : AuthService) (store : UserStore) (refreshToken : Token)
    (now : Nat) : Except String AuthTokens :=
  match verifyRefreshClaims svc refreshToken now with
  | .error e => .error e
  | .ok validatedPayload =>
      match findById store validatedPayload.userId with
      | none => .error ("Invalid refresh token")
      | some user =>
          if !user.is_active then .error ("Invalid refresh token")
          else .ok (generateTokens svc
            ⟨user.id, user.email, user.role, user.timezone, validatedPayload.sessionId⟩
            false now)

/-- HTTP error body: status, error code and message (the timestamp field
is request-time noise and is not modelled). -/
structure HttpErrorResponse where
  status : Nat
  code : String
  message : String
deriving DecidableEq

/-- Outcome of POST /login. -/
inductive LoginHttpResult
  | ok (user : AuthenticatedUser) (tokens : AuthTokens)
  | err (e : HttpErrorResponse)
deriving DecidableEq

/-- The 401 body of POST /login for both the invalid-credentials and the
deactivated-account messages. -/
def authFailedResponse : HttpErrorResponse :=
  ⟨401, "AUTHENTICATION_FAILED", "Invalid email or password"⟩

/-- POST /login error mapping: zod errors to 400, the two
authentication messages to the single 401 body, anything else 500. -/
def loginRoute (svc : AuthService) (store : UserStore) (data : LoginRequest)
    (sessionId : String) (now : Nat) : LoginHttpResult :=
  match login svc store data sessionId now with
  | .ok (user, tokens, _) => .ok user tokens
  | .error .zod => .err ⟨400, "VALIDATION_ERROR", "Invalid login data"⟩
  | .error (.err m) =>
      if m == "Invalid email or password" || m == "Account is deactivated" then
        .err authFailedResponse
      else .err ⟨500, "LOGIN_FAILED", "Failed to authenticate user"⟩

/-- Outcome of POST /register. -/
inductive RegisterHttpResult
  | created (user : AuthenticatedUser) (tokens : AuthTokens)
  | err (e : HttpErrorResponse)
deriving DecidableEq

/-- The 409 body of POST /register for a duplicate email. -/
def emailExistsResponse : HttpErrorResponse :=
  ⟨409, "EMAIL_EXISTS", "An account with this email already exists"⟩

/-- POST /register error mapping: zod errors to 400, the duplicate-email
message to 409 EMAIL_EXISTS, anything else 500; success is 201. -/
def registerRoute (svc : AuthService) (store : UserStore) (data : RegisterRequest)
    (newId sessionId : String) (now : Nat) : RegisterHttpResult :=
  match register svc store data newId sessionId now with
  | .ok (user, tokens, _) => .created user tokens
  | .error .zod => .err ⟨400, "VALIDATION_ERROR", "Invalid registration data"⟩
  | .error (.err m) =>
      if m == "Email already registered" then .err emailExistsResponse
      else .err ⟨500, "REGISTRATION_FAILED", "Failed to register user"⟩

/-- AuthService roleHierarchy map. -/
def roleHierarchy : UserRole → Nat
  | .stakeholder => 1
  | .productManager => 2
  | .designer => 3
  | .developer => 4

/-- AuthService.hasPermission: ordinal comparison, user rank at least the
required rank. -/
def hasPermission (userRole requiredRole : UserRole) : Bool :=
  decide (roleHierarchy requiredRole ≤ roleHierarchy userRole)

/-- AuthService.canAccessResource: owners always allowed, otherwise the
optional required role decides, otherwise deny. -/
def canAccessResource (userRole : UserRole) (userId resourceOwnerId : String)
    (requiredRole : Option UserRole) : Bool :=
  if userId == resourceOwnerId then true
  else
    match requiredRole with
    | some r => hasPermission userRole r
    | none => false

/-- Entry of the authRateLimit attempts map. -/
structure RateLimitEntry where
  count : Nat
  resetTime : Nat
deriving DecidableEq

/-- The attempts map of authRateLimit, keyed by client id. -/
def RateMap := String → Option RateLimitEntry

/-- The map before any attempt. -/
def rlEmpty : RateMap := fun _ => none

/-- The cleanup sweep of authRateLimit: drops every entry whose
resetTime has strictly passed. -/
def rlCleanup (m : RateMap) (now : Nat) : RateMap :=
  fun k =>
    match m k with
    | some e => if now > e.resetTime then none else some e
    | none => none

/-- Outcome of one authRateLimit check: pass to next, or the 429
response with its retryAfter seconds. -/
inductive RateLimitResult
  | allow
  | reject (retryAfter : Nat)
deriving DecidableEq

/-- One invocation of the authRateLimit middleware: sweep expired
entries, open a window of count 1 on a first attempt or after the
window has passed, reject with retryAfter = ceil((resetTime - now) /
1000) once count has reached maxAttempts, else increment. Times are
milliseconds. -/
def authRateLimitCheck (maxAttempts windowMs : Nat) (m : RateMap)
    (clientId : String) (now : Nat) : RateLimitResult × RateMap :=
  let attempts := rlCleanup m now
  match attempts clientId with
  | none =>
      (.allow, fun k => if k = clientId then some ⟨1, now + windowMs⟩ else attempts k)
  | some clientAttempts =>
      if now > clientAttempts.resetTime then
        (.allow, fun k => if k = clientId then some ⟨1, now + windowMs⟩ else attempts k)
      else if maxAttempts ≤ clientAttempts.count then
        (.reject ((clientAttempts.resetTime - now + 999) / 1000), attempts)
      else
        (.allow, fun k =>
          if k = clientId then some ⟨clientAttempts.count + 1, clientAttempts.resetTime⟩
          else attempts k)

/-- Iterated authRateLimit checks of one client at the given times,
threading the map. -/
def rlRun (maxAttempts windowMs : Nat) (clientId : String) :
    List Nat → RateMap → List RateLimitResult × RateMap
  | [], m => ([], m)
  | t :: ts, m =>
      ((authRateLimitCheck maxAttempts windowMs m clientId t).1 ::
        (rlRun maxAttempts windowMs clientId ts
          (authRateLimitCheck maxAttempts windowMs m clientId t).2).1,
       (rlRun maxAttempts windowMs clientId ts
          (authRateLimitCheck maxAttempts windowMs m clientId t).2).2)

/-- Middleware extractToken: no header gives null, and JavaScript
falsiness also sends the empty header there; a Bearer prefix is
stripped; any other non-empty value is used whole. -/
def extractToken (authHeader : Option String) : Option String :=
  match authHeader with
  | none => none
  | some s =>
      if s = "" then none
      else if startsWithStr s ("Bearer ") then some (dropStr s 7)
      else some s

/-- req.user as set by the authenticate middleware. -/
structure RequestUser where
  id : String
  email : String
  role : UserRole
  timezone : String
  sessionId : String
deriving DecidableEq

/-- Outcome of the authenticate middleware. -/
inductive AuthenticateResult
  | unauthorized (e : HttpErrorResponse)
  | authed (u : RequestUser)
deriving DecidableEq

/-- The 401 MISSING_TOKEN body. -/
def missingTokenResponse : HttpErrorResponse :=
  ⟨401, "MISSING_TOKEN", "Authentication token is required"⟩

/-- The 401 INVALID_TOKEN body. -/
def invalidTokenResponse : HttpErrorResponse :=
  ⟨401, "INVALID_TOKEN", "Invalid or expired authentication token"⟩

/-- Middleware authenticate: extract the token; the falsy check
if (!token) answers 401 MISSING_TOKEN both when extraction returned
null and when the extracted token is the empty string (the header
Bearer followed by just a space extracts the empty token); otherwise
verify (authService.verifyAccessToken over the wire string, supplied
here as a function) and either 401 INVALID_TOKEN or attach the claims
as req.user. -/
def authenticate (verify : String → Except String JWTPayload)
    (authHeader : Option String) : AuthenticateResult :=
  match extractToken authHeader with
  | none => .unauthorized missingTokenResponse
  | some token =>
      if token = "" then .unauthorized missingTokenResponse
      else
        match verify token with
        | .error _ => .unauthorized invalidTokenResponse
        | .ok payload =>
            .authed ⟨payload.userId, payload.email, payload.role,
                     payload.timezone, payload.sessionId⟩

/-- Concrete uuid used by witnesses. -/
def uuidA : String := "11111111-1111-1111-1111-111111111111"

/-- Concrete uuid used by witnesses. -/
def uuidB : String := "22222222-2222-2222-2222-222222222222"

/-- Concrete uuid used by witnesses. -/
def uuidC : String := "33333333-3333-3333-3333-333333333333"

/-- Concrete service configuration used by witnesses: distinct secrets,
default TTLs. -/
def wSvc : AuthService :=
  ⟨"access-secret", "refresh-secret", 900, 604800, 12⟩

/-- Concrete active user used by witnesses. -/
def alice : DBUser :=
  ⟨uuidA, "Alice", "alice@example.com", bcryptHash ("correct-password") 12,
   .developer, "UTC", true, true, none⟩

/-- Concrete deactivated user used by witnesses. -/
def carol : DBUser :=
  ⟨uuidC, "Carol", "carol@example.com", bcryptHash ("carol-password") 12,
   .designer, "UTC", false, true, none⟩

/-- Concrete store used by witnesses. -/
def wStore : UserStore := [alice, carol]

/-- Well-signed access token whose exp (10) lies in the past at clock
20. -/
def expiredTok : Token :=
  jwtSign { userId := some uuidA, email := some ("a@b.co"), role := some .developer,
            timezone := some ("UTC"), sessionId := some uuidB,
            iat := some 0, exp := some 10 } ("access-secret")

/-- Unexpired access token signed with the wrong secret. -/
def tamperedTok : Token :=
  jwtSign { userId := some uuidA, email := some ("a@b.co"), role := some .developer,
            timezone := some ("UTC"), sessionId := some uuidB,
            iat := some 0, exp := some 1000 } ("wrong-secret")

/-- Well-signed, unexpired access token carrying an unknown extra field
isAdmin. -/
def extraFieldTok : Token :=
  jwtSign { userId := some uuidA, email := some ("a@b.co"), role := some .developer,
            timezone := some ("UTC"), sessionId := some uuidB,
            iat := some 0, exp := some 1000, extras := ["isAdmin"] } ("access-secret")

/-- Environment with JWT_REFRESH_SECRET unset. -/
def envNoRefreshSecret : AuthEnv := { JWT_SECRET := some ("only-secret") }

/-- The service the constructor builds from envNoRefreshSecret: the
refresh secret silently defaults to the access secret. -/
def svcDefaulted : AuthService := ⟨"only-secret", "only-secret", 900, 604800, 12⟩

/-- Refresh-shaped token signed with the ACCESS secret of
svcDefaulted. -/
def forgedRefreshTok : Token :=
  jwtSign { userId := some uuidA, sessionId := some uuidB, tokenVersion := some 1,
            iat := some 0, exp := some 10000 } ("only-secret")

/-- Token pair issued at second 1000 for alice under session uuidB, as
login would. -/
def rotTok0 : AuthTokens :=
  generateTokens wSvc ⟨uuidA, "alice@example.com", .developer, "UTC", uuidB⟩ false 1000

/-- Head of a filtered list satisfies the filter predicate. -/
lemma head_filter_eq_true {α : Type} {p : α → Bool} {l : List α} {a : α}
    (h : (l.filter p).head? = some a) : p a = true := by
  cases hf : l.filter p with
  | nil => rw [hf] at h; cases h
  | cons x xs =>
      rw [hf] at h
      have hx : x ∈ l.filter p := by
        rw [hf]; exact List.mem_cons_self x xs
      have hpx := (List.mem_filter.mp hx).2
      have hxa : x = a := by
        simpa using h
      rw [← hxa]; exact hpx

/-- findByEmail misses exactly when no active row carries the
lower-cased email. -/
lemma findByEmail_eq_none {store : UserStore} {e : String}
    (h : ∀ u ∈ store, ¬(u.email = toLowerCase e ∧ u.is_active = true)) :
    findByEmail store e = none := by
  induction store with
  | nil => rfl
  | cons a l ih =>
      have ha := h a (List.mem_cons_self a l)
      have hl : ∀ u ∈ l, ¬(u.email = toLowerCase e ∧ u.is_active = true) :=
        fun u hu => h u (List.mem_cons_of_mem a hu)
      have hpa : (a.email == toLowerCase e && a.is_active) = false := by
        cases hb : (a.email == toLowerCase e && a.is_active)
        · rfl
        · obtain ⟨h1, h2⟩ := (Bool.and_eq_true _ _).mp hb
          exact absurd ⟨by simpa using h1, h2⟩ ha
      have htail := ih hl
      simp only [findByEmail] at htail ⊢
      rw [List.filter_cons, if_neg (by simp [hpa])]
      exact htail

/-- A findByEmail hit is an active row under the lower-cased email. -/
lemma findByEmail_some {store : UserStore} {e : String} {u : DBUser}
    (h : findByEmail store e = some u) :
    u.email = toLowerCase e ∧ u.is_active = true := by
  simp only [findByEmail] at h
  have := head_filter_eq_true h
  obtain ⟨h1, h2⟩ := (Bool.and_eq_true _ _).mp this
  exact ⟨by simpa using h1, h2⟩

/-- When some active row carries the lower-cased email, findByEmail
hits. -/
lemma findByEmail_isSome {store : UserStore} {e : String}
    (h : ∃ u ∈ store, u.email = toLowerCase e ∧ u.is_active = true) :
    ∃ w, findByEmail store e = some w := by
  obtain ⟨u, hu, he, ha⟩ := h
  have hmem : u ∈ store.filter (fun v => v.email == toLowerCase e && v.is_active) :=
    List.mem_filter.mpr ⟨hu, by simp [he, ha]⟩
  cases hf : store.filter (fun v => v.email == toLowerCase e && v.is_active) with
  | nil => rw [hf] at hmem; cases hmem
  | cons x xs => exact ⟨x, by simp [findByEmail, hf]⟩

/-- A findById hit carries the looked-up id. -/
lemma findById_id {store : UserStore} {i : String} {u : DBUser}
    (h : findById store i = some u) : u.id = i := by
  simp only [findById] at h
  have := head_filter_eq_true h
  simpa using this

/-- Inversion of RefreshTokenPayloadSchema.parse: the wire payload holds
exactly the parsed required fields and the uuid refinements hold. -/
lemma refreshParse_inv {p : WirePayload} {rp : RefreshTokenPayload}
    (h : RefreshTokenPayloadSchemaParse p = some rp) :
    p.userId = some rp.userId ∧ p.sessionId = some rp.sessionId ∧
    p.tokenVersion = some rp.tokenVersion ∧ p.iat = some rp.iat ∧
    p.exp = some rp.exp ∧ isUuid rp.userId = true ∧ isUuid rp.sessionId = true := by
  obtain ⟨u, e, r, tz, s, tv, i, x, ex⟩ := p
  simp only [RefreshTokenPayloadSchemaParse] at h
  cases u <;> cases s <;> cases tv <;> cases i <;> cases x <;> simp_all
  · obtain ⟨⟨hu2, hs2⟩, hmk⟩ := h
    subst hmk
    simp_all

/-- A wire payload missing any required access-token field fails the
access schema parse. -/
lemma jwtParse_none_of_missing {p : WirePayload}
    (h : p.userId = none ∨ p.email = none ∨ p.role = none ∨ p.timezone = none ∨
         p.sessionId = none ∨ p.iat = none ∨ p.exp = none) :
    JWTPayloadSchemaParse p = none := by
  obtain ⟨u, e, r, tz, s, tv, i, x, ex⟩ := p
  cases u <;> cases e <;> cases r <;> cases tz <;> cases s <;> cases i <;> cases x <;>
    simp_all [JWTPayloadSchemaParse]

/-- C8: hasPermission implements the fixed total order stakeholder <
product-manager < designer < developer: the ranks strictly increase
along that order, hasPermission developer stakeholder is true,
hasPermission stakeholder developer is false, and hasPermission x x
holds for every role x. -/
theorem hasPermission_role_order :
    roleHierarchy .stakeholder < roleHierarchy .productManager
    ∧ roleHierarchy .productManager < roleHierarchy .designer
    ∧ roleHierarchy .designer < roleHierarchy .developer
    ∧ hasPermission .developer .stakeholder = true
    ∧ hasPermission .stakeholder .developer = false
    ∧ ∀ x : UserRole, hasPermission x x = true := by
  refine ⟨by decide, by decide, by decide, by decide, by decide, ?_⟩
  intro x; cases x <;> rfl

/-- C4: round trip. Claims issued through generateTokens verify back,
before expiry, to exactly the issued claims: the access token yields
userId, email, role, timezone, sessionId (with the signing iat and
exp), and the refresh token yields userId, sessionId, tokenVersion. The
uuid and email hypotheses are the zod refinements of the schemas, which
the stored users satisfy. -/
theorem token_roundtrip (svc : AuthService) (input : TokenGenInput)
    (longLived : Bool) (now t : Nat)
    (hu : isUuid input.userId = true) (he : isEmailAddr input.email = true)
    (hs : isUuid input.sessionId = true)
    (hta : t < now + svc.JWT_EXPIRES_IN)
    (htr : t < now + (if longLived then 30 * 24 * 60 * 60 else svc.JWT_REFRESH_EXPIRES_IN)) :
    verifyAccessToken svc (generateTokens svc input longLived now).accessToken t
      = .ok ⟨input.userId, input.email, input.role, input.timezone, input.sessionId,
             now, now + svc.JWT_EXPIRES_IN⟩
    ∧ verifyRefreshClaims svc (generateTokens svc input longLived now).refreshToken t
      = .ok ⟨input.userId, input.sessionId, 1, now,
             now + (if longLived then 30 * 24 * 60 * 60 else svc.JWT_REFRESH_EXPIRES_IN)⟩ := by
  constructor
  · simp [verifyAccessToken, generateTokens, jwtSign, jwtVerify,
          JWTPayloadSchemaParse, hu, he, hs, Nat.not_le.mpr hta]
  · simp [verifyRefreshClaims, generateTokens, jwtSign, jwtVerify,
          RefreshTokenPayloadSchemaParse, hu, hs, Nat.not_le.mpr htr]

/-- Witness for token_roundtrip at a concrete input. -/
theorem token_roundtrip_witness :
    verifyAccessToken wSvc (generateTokens wSvc ⟨uuidA, "a@b.co", .developer, "UTC", uuidB⟩ false 1000).accessToken 1500
      = .ok ⟨uuidA, "a@b.co", .developer, "UTC", uuidB, 1000, 1000 + wSvc.JWT_EXPIRES_IN⟩
    ∧ verifyRefreshClaims wSvc (generateTokens wSvc ⟨uuidA, "a@b.co", .developer, "UTC", uuidB⟩ false 1000).refreshToken 1500
      = .ok ⟨uuidA, uuidB, 1, 1000,
             1000 + (if false then 30 * 24 * 60 * 60 else wSvc.JWT_REFRESH_EXPIRES_IN)⟩ :=
  token_roundtrip wSvc ⟨uuidA, "a@b.co", .developer, "UTC", uuidB⟩ false 1000 1500
    (by decide) (by decide) (by decide) (by decide) (by decide)

/-- C5 (amended): every token whose embedded exp has passed fails both
access verification and refresh, but the error surfaced by the service
is the single generic invalid-token error for either token kind, never
a distinct TokenExpired kind (the catch-all collapses the
TokenExpiredError of jwt.verify). -/
theorem expired_token_rejected (svc : AuthService) (store : UserStore)
    (tok : Token) (now e : Nat)
    (hexp : tok.payload.exp = some e) (hle : e ≤ now) :
    verifyAccessToken svc tok now = .error ("Invalid access token")
    ∧ refreshTokenOp svc store tok now = .error ("Invalid refresh token") := by
  constructor
  · by_cases hsec : tok.secret = svc.JWT_SECRET
    · simp [verifyAccessToken, jwtVerify, hsec, hexp, hle]
    · simp [verifyAccessToken, jwtVerify, hsec]
  · by_cases hsec : tok.secret = svc.JWT_REFRESH_SECRET
    · simp [refreshTokenOp, verifyRefreshClaims, jwtVerify, hsec, hexp, hle]
    · simp [refreshTokenOp, verifyRefreshClaims, jwtVerify, hsec]

/-- Witness for expired_token_rejected at a concrete expired token. -/
theorem expired_token_rejected_witness :
    verifyAccessToken wSvc expiredTok 20 = .error ("Invalid access token")
    ∧ refreshTokenOp wSvc wStore expiredTok 20 = .error ("Invalid refresh token") :=
  expired_token_rejected wSvc wStore expiredTok 20 10 rfl (by decide)

/-- Counterexample to C5 as stated: at clock 20 the expired token fails
inside jwt.verify with the TokenExpired kind, but verifyAccessToken
surfaces exactly the same generic error as for a token with an invalid
signature, so the caller-visible failure is never the TokenExpired
kind. -/
theorem expired_token_kind_collapsed :
    jwtVerify expiredTok wSvc.JWT_SECRET 20 = .error .tokenExpired
    ∧ verifyAccessToken wSvc expiredTok 20 = .error ("Invalid access token")
    ∧ verifyAccessToken wSvc tamperedTok 20 = .error ("Invalid access token") :=
  ⟨rfl, rfl, rfl⟩

/-- C6 (amended): access-token verification rejects every token whose
payload misses a required claim field even when the signature is valid,
but a validly signed token carrying unknown extra fields (an extras
list, or a tokenVersion on an access token) is accepted, the extras
silently stripped: zod object schemas strip unknown keys rather than
reject them. -/
theorem schema_check_behavior (svc : AuthService) (now : Nat) :
    (∀ p : WirePayload,
      (p.userId = none ∨ p.email = none ∨ p.role = none ∨ p.timezone = none ∨
       p.sessionId = none ∨ p.iat = none ∨ p.exp = none) →
      verifyAccessToken svc (jwtSign p svc.JWT_SECRET) now = .error ("Invalid access token"))
    ∧ (∀ (u e tz s : String) (r : UserRole) (i x : Nat) (tv : Option Nat) (extras : List String),
      isUuid u = true → isEmailAddr e = true → isUuid s = true → now < x →
      verifyAccessToken svc
        (jwtSign { userId := some u, email := some e, role := some r, timezone := some tz,
                   sessionId := some s, tokenVersion := tv, iat := some i, exp := some x,
                   extras := extras } svc.JWT_SECRET) now
        = .ok ⟨u, e, r, tz, s, i, x⟩) := by
  constructor
  · intro p h
    have hp := jwtParse_none_of_missing h
    cases hE : p.exp with
    | none => simp [verifyAccessToken, jwtVerify, jwtSign, hE, hp]
    | some e =>
        by_cases hle : e ≤ now
        · simp [verifyAccessToken, jwtVerify, jwtSign, hE, hle]
        · simp [verifyAccessToken, jwtVerify, jwtSign, hE, hle, hp]
  · intro u e tz s r i x tv extras hu he hs hx
    simp [verifyAccessToken, jwtVerify, jwtSign, JWTPayloadSchemaParse,
          hu, he, hs, Nat.not_le.mpr hx]

/-- Witness for schema_check_behavior: the empty payload is rejected,
and a payload with an unknown extras entry and a stray tokenVersion is
accepted with those stripped. -/
theorem schema_check_behavior_witness :
    verifyAccessToken wSvc (jwtSign {} wSvc.JWT_SECRET) 0 = .error ("Invalid access token")
    ∧ verifyAccessToken wSvc
        (jwtSign { userId := some uuidA, email := some ("a@b.co"), role := some .developer,
                   timezone := some ("UTC"), sessionId := some uuidB, tokenVersion := some 1,
                   iat := some 0, exp := some 1000, extras := ["isAdmin"] } wSvc.JWT_SECRET) 5
        = .ok ⟨uuidA, "a@b.co", .developer, "UTC", uuidB, 0, 1000⟩ :=
  ⟨(schema_check_behavior wSvc 0).1 {} (Or.inl rfl),
   (schema_check_behavior wSvc 5).2 uuidA ("a@b.co") ("UTC") uuidB .developer 0 1000
     (some 1) ["isAdmin"] (by decide) (by decide) (by decide) (by decide)⟩

/-- Counterexample to C6 as stated: a validly signed, unexpired token
carrying the unknown extra field isAdmin is accepted by
verifyAccessToken instead of being rejected. -/
theorem extra_field_token_accepted :
    extraFieldTok.payload.extras = ["isAdmin"]
    ∧ verifyAccessToken wSvc extraFieldTok 5
        = .ok ⟨uuidA, "a@b.co", .developer, "UTC", uuidB, 0, 1000⟩ :=
  ⟨rfl, rfl⟩

/-- C7 (amended): the refresh secret honours the environment when set
non-empty, and whenever the two configured secrets differ, a token
signed under one fails signature verification under the other, in both
directions. When JWT_REFRESH_SECRET is unset or empty it silently
defaults to the access secret, so the secrets are NOT independent in
every configuration. -/
theorem independent_secrets (env : AuthEnv) (svc : AuthService)
    (h : mkAuthService env = some svc) :
    (∀ r, env.JWT_REFRESH_SECRET = some r → r ≠ "" → svc.JWT_REFRESH_SECRET = r)
    ∧ ((env.JWT_REFRESH_SECRET = none ∨ env.JWT_REFRESH_SECRET = some "") →
       svc.JWT_REFRESH_SECRET = svc.JWT_SECRET)
    ∧ (svc.JWT_SECRET ≠ svc.JWT_REFRESH_SECRET →
       ∀ (p q : WirePayload) (n1 n2 : Nat),
         jwtVerify (jwtSign p svc.JWT_SECRET) svc.JWT_REFRESH_SECRET n1
           = .error .invalidSignature
         ∧ jwtVerify (jwtSign q svc.JWT_REFRESH_SECRET) svc.JWT_SECRET n2
           = .error .invalidSignature) := by
  cases hS : env.JWT_SECRET with
  | none => simp [mkAuthService, hS] at h
  | some s =>
      by_cases hse : s = ""
      · simp [mkAuthService, hS, hse] at h
      · obtain ⟨hA, hB⟩ : svc.JWT_SECRET = s ∧
            svc.JWT_REFRESH_SECRET = envOrElse env.JWT_REFRESH_SECRET s := by
          simp only [mkAuthService, hS, if_neg hse, Option.some.injEq] at h
          rw [← h]
          exact ⟨rfl, rfl⟩
        refine ⟨?_, ?_, ?_⟩
        · intro r hr hrne
          rw [hB]; simp [envOrElse, hr, hrne]
        · intro hor
          rcases hor with hn | hy
          · rw [hB, hA]; simp [envOrElse, hn]
          · rw [hB, hA]; simp [envOrElse, hy]
        · intro hne p q n1 n2
          constructor
          · simp [jwtVerify, jwtSign, hne]
          · simp [jwtVerify, jwtSign, Ne.symm hne]

/-- Witness for independent_secrets on a configuration with both
secrets set and distinct. -/
theorem independent_secrets_witness :
    (∀ r, (some ("refresh-secret") : Option String) = some r → r ≠ "" →
      wSvc.JWT_REFRESH_SECRET = r)
    ∧ ((some ("refresh-secret") : Option String) = none ∨
        (some ("refresh-secret") : Option String) = some "" →
       wSvc.JWT_REFRESH_SECRET = wSvc.JWT_SECRET)
    ∧ (wSvc.JWT_SECRET ≠ wSvc.JWT_REFRESH_SECRET →
       ∀ (p q : WirePayload) (n1 n2 : Nat),
         jwtVerify (jwtSign p wSvc.JWT_SECRET) wSvc.JWT_REFRESH_SECRET n1
           = .error .invalidSignature
         ∧ jwtVerify (jwtSign q wSvc.JWT_REFRESH_SECRET) wSvc.JWT_SECRET n2
           = .error .invalidSignature) :=
  independent_secrets
    { JWT_SECRET := some ("access-secret"),
      JWT_REFRESH_SECRET := some ("refresh-secret") } wSvc rfl

/-- Counterexample to C7 as stated: with JWT_REFRESH_SECRET unset the
constructor defaults the refresh secret to the access secret, and a
refresh-shaped token signed with the ACCESS secret fully verifies as a
refresh token, so compromise of the access secret forges refresh
tokens in this configuration. -/
theorem refresh_secret_defaults_to_access :
    mkAuthService envNoRefreshSecret = some svcDefaulted
    ∧ svcDefaulted.JWT_REFRESH_SECRET = svcDefaulted.JWT_SECRET
    ∧ forgedRefreshTok.secret = svcDefaulted.JWT_SECRET
    ∧ refreshTokenOp svcDefaulted [alice] forgedRefreshTok 100
        = .ok (generateTokens svcDefaulted
            ⟨alice.id, alice.email, alice.role, alice.timezone, uuidB⟩ false 100) :=
  ⟨rfl, rfl, rfl, rfl⟩

/-- C2: login failures are indistinguishable at the HTTP boundary. In
each of the three cases (no row under the email at all, rows exist but
all are inactive, password fails to verify against the found active
row) POST /login answers with the one literal 401 AUTHENTICATION_FAILED
body, so the three responses are identical in shape and content. The
deactivated case reaches the same response because findByEmail already
filters on is_active, and the route additionally maps the deactivated
message to the same body. -/
theorem login_failures_indistinguishable (svc : AuthService) (store : UserStore)
    (data : LoginRequest) (sessionId : String) (now : Nat)
    (hv : LoginRequestSchemaCheck data.email data.password = true) :
    ((∀ u ∈ store, u.email ≠ toLowerCase data.email) →
      loginRoute svc store data sessionId now = .err authFailedResponse)
    ∧ ((∃ u ∈ store, u.email = toLowerCase data.email) →
       (∀ u ∈ store, u.email = toLowerCase data.email → u.is_active = false) →
      loginRoute svc store data sessionId now = .err authFailedResponse)
    ∧ (∀ u, findByEmail store data.email = some u →
       bcryptCompare data.password u.password_hash = false →
      loginRoute svc store data sessionId now = .err authFailedResponse) := by
  refine ⟨?_, ?_, ?_⟩
  · intro h
    have hn : findByEmail store data.email = none :=
      findByEmail_eq_none (fun u hu hc => h u hu hc.1)
    simp [loginRoute, login, hv, hn]
  · intro _ hall
    have hn : findByEmail store data.email = none :=
      findByEmail_eq_none (fun u hu hc => by
        have := hall u hu hc.1
        rw [this] at hc
        exact Bool.false_ne_true hc.2)
    simp [loginRoute, login, hv, hn]
  · intro u hu hpw
    have hact := (findByEmail_some hu).2
    simp [loginRoute, login, hv, hu, hact, hpw]

/-- Witness for login_failures_indistinguishable: unknown email,
deactivated account, and wrong password all produce the same 401
body over the concrete store. -/
theorem login_failures_indistinguishable_witness :
    loginRoute wSvc wStore ⟨"ghost@example.com", "whatever1", none, false⟩ uuidB 0
      = .err authFailedResponse
    ∧ loginRoute wSvc wStore ⟨"carol@example.com", "carol-password", none, false⟩ uuidB 0
      = .err authFailedResponse
    ∧ loginRoute wSvc wStore ⟨"alice@example.com", "wrong-password", none, false⟩ uuidB 0
      = .err authFailedResponse :=
  ⟨(login_failures_indistinguishable wSvc wStore
      ⟨"ghost@example.com", "whatever1", none, false⟩ uuidB 0 (by decide)).1
      (by decide),
   (login_failures_indistinguishable wSvc wStore
      ⟨"carol@example.com", "carol-password", none, false⟩ uuidB 0 (by decide)).2.1
      (by decide) (by decide),
   (login_failures_indistinguishable wSvc wStore
      ⟨"alice@example.com", "wrong-password", none, false⟩ uuidB 0 (by decide)).2.2
      alice (by rfl) (by decide)⟩

/-- C9 (amended): register answers 409 EMAIL_EXISTS whenever the store
holds an active row under the lower-cased submitted email (hence for
every case variant, since the check is on the lower-cased form); when
no row at all, active or inactive, holds that lower-cased email it
persists the new credential with the lower-cased email and succeeds
with 201; when only inactive rows hold that email (reachable via
deactivateUser), the active-only duplicate check misses them, the
INSERT violates the users.email unique constraint, and the route
answers 500 REGISTRATION_FAILED instead of succeeding. -/
theorem register_email_cases (svc : AuthService) (store : UserStore)
    (data : RegisterRequest) (newId sessionId : String) (now : Nat)
    (hv : RegisterRequestSchemaCheck data.name data.email data.password = true) :
    ((∃ u ∈ store, u.email = toLowerCase data.email ∧ u.is_active = true) →
      registerRoute svc store data newId sessionId now = .err emailExistsResponse)
    ∧ ((∀ u ∈ store, u.email ≠ toLowerCase data.email) →
      register svc store data newId sessionId now
        = .ok (mapToAuthenticatedUser (registerNewUser svc data newId),
               generateTokens svc
                 ⟨newId, toLowerCase data.email, data.role, data.timezone, sessionId⟩
                 false now,
               updateLastSeen (store ++ [registerNewUser svc data newId]) newId now)
      ∧ (registerNewUser svc data newId).email = toLowerCase data.email
      ∧ registerRoute svc store data newId sessionId now
          = .created (mapToAuthenticatedUser (registerNewUser svc data newId))
              (generateTokens svc
                ⟨newId, toLowerCase data.email, data.role, data.timezone, sessionId⟩
                false now))
    ∧ ((∀ u ∈ store, ¬(u.email = toLowerCase data.email ∧ u.is_active = true)) →
       (∃ u ∈ store, u.email = toLowerCase data.email) →
      registerRoute svc store data newId sessionId now
        = .err ⟨500, "REGISTRATION_FAILED", "Failed to register user"⟩) := by
  refine ⟨?_, ?_, ?_⟩
  · intro h
    obtain ⟨w, hw⟩ := findByEmail_isSome h
    simp [registerRoute, register, hv, hw]
  · intro h
    have hn : findByEmail store data.email = none :=
      findByEmail_eq_none (fun u hu hc => h u hu hc.1)
    have hany : store.any (fun u => u.email == toLowerCase data.email) = false := by
      rw [List.any_eq_false]
      intro u hu
      simpa using h u hu
    refine ⟨?_, rfl, ?_⟩
    · simp [register, hv, hn, hany, registerNewUser]
    · simp [registerRoute, register, hv, hn, hany, registerNewUser]
  · intro hall hex
    have hn : findByEmail store data.email = none := findByEmail_eq_none hall
    have hany : store.any (fun u => u.email == toLowerCase data.email) = true := by
      rw [List.any_eq_true]
      obtain ⟨u, hu, he⟩ := hex
      exact ⟨u, hu, by simpa using he⟩
    simp [registerRoute, register, hv, hn, hany]

/-- Witness for register_email_cases: registering a case variant of the
stored active email is answered 409, registering an unknown email
succeeds with the lower-cased email persisted, and registering a case
variant of the stored inactive email is answered 500. -/
theorem register_email_cases_witness :
    registerRoute wSvc wStore ⟨"Alice", "Alice@Example.com", "password1", .developer, "UTC"⟩
        uuidC uuidB 0
      = .err emailExistsResponse
    ∧ register wSvc wStore ⟨"Bob", "Bob@Example.com", "password1", .developer, "UTC"⟩
        uuidC uuidB 0
        = .ok (mapToAuthenticatedUser
                 (registerNewUser wSvc ⟨"Bob", "Bob@Example.com", "password1", .developer, "UTC"⟩ uuidC),
               generateTokens wSvc
                 ⟨uuidC, toLowerCase "Bob@Example.com", .developer, "UTC", uuidB⟩ false 0,
               updateLastSeen
                 (wStore ++ [registerNewUser wSvc ⟨"Bob", "Bob@Example.com", "password1", .developer, "UTC"⟩ uuidC])
                 uuidC 0)
    ∧ (registerNewUser wSvc ⟨"Bob", "Bob@Example.com", "password1", .developer, "UTC"⟩ uuidC).email
        = toLowerCase "Bob@Example.com"
    ∧ registerRoute wSvc wStore ⟨"Carla", "Carol@Example.com", "password1", .developer, "UTC"⟩
        uuidC uuidB 0
      = .err ⟨500, "REGISTRATION_FAILED", "Failed to register user"⟩ :=
  ⟨(register_email_cases wSvc wStore ⟨"Alice", "Alice@Example.com", "password1", .developer, "UTC"⟩
      uuidC uuidB 0 (by decide)).1 (by decide),
   ((register_email_cases wSvc wStore ⟨"Bob", "Bob@Example.com", "password1", .developer, "UTC"⟩
      uuidC uuidB 0 (by decide)).2.1 (by decide)).1,
   ((register_email_cases wSvc wStore ⟨"Bob", "Bob@Example.com", "password1", .developer, "UTC"⟩
      uuidC uuidB 0 (by decide)).2.1 (by decide)).2.1,
   (register_email_cases wSvc wStore ⟨"Carla", "Carol@Example.com", "password1", .developer, "UTC"⟩
      uuidC uuidB 0 (by decide)).2.2 (by decide) (by decide)⟩

/-- Counterexample to C9 as stated: the store holds no ACTIVE record
under the lower-cased email carol at example.com (only carol, who is
deactivated), so the claim requires registration of the case variant to
persist the credential and succeed; but the active-only duplicate check
misses the inactive row, the INSERT hits the users.email unique
constraint, and the route answers 500 REGISTRATION_FAILED, not 201. -/
theorem register_inactive_email_500 :
    (∀ u ∈ wStore, ¬(u.email = toLowerCase "Carol@Example.com" ∧ u.is_active = true))
    ∧ carol ∈ wStore
    ∧ carol.email = toLowerCase "Carol@Example.com"
    ∧ carol.is_active = false
    ∧ registerRoute wSvc wStore ⟨"Carla", "Carol@Example.com", "password1", .developer, "UTC"⟩
        uuidC uuidB 0
      = .err ⟨500, "REGISTRATION_FAILED", "Failed to register user"⟩ := by
  refine ⟨by decide, by decide, by decide, by decide, by decide⟩

/-- Header whose Bearer-stripped token is empty is exactly the string
Bearer followed by one space. -/
lemma bearer_header_of_empty_drop {s : String}
    (h1 : startsWithStr s ("Bearer ") = true) (h2 : dropStr s 7 = "") :
    s = ("Bearer ") := by
  cases s with
  | mk data =>
      have hlen : ("Bearer ").data.length = 7 := rfl
      have ht : data.take 7 = ("Bearer ").data := by
        have hb := h1
        simp only [startsWithStr, hlen] at hb
        exact eq_of_beq hb
      have hd : data.drop 7 = ([] : List Char) := by
        have := congrArg String.data h2
        simpa [dropStr] using this
      have hdata : data = ("Bearer ").data := by
        have hsplit := (List.take_append_drop 7 data).symm
        rw [ht, hd] at hsplit
        simpa using hsplit
      rw [hdata]

/-- C10 (amended): a non-empty Authorization header that does not start
with Bearer and a space is used whole as the access token (such a token
is non-empty, so it passes the falsy check), and authenticate succeeds
on it when it verifies; the 401 MISSING_TOKEN response is produced
exactly when the header is absent, is the empty string, or is exactly
the string Bearer followed by one space — the last two because the
falsy checks on the header and on the extracted token also fire on
empty strings, not only on an entirely absent header. -/
theorem authenticate_bare_header (verify : String → Except String JWTPayload)
    (s : String) (hne : s ≠ "") (hnb : startsWithStr s ("Bearer ") = false) :
    extractToken (some s) = some s
    ∧ (∀ payload, verify s = .ok payload →
        authenticate verify (some s)
          = .authed ⟨payload.userId, payload.email, payload.role,
                     payload.timezone, payload.sessionId⟩)
    ∧ (∀ h : Option String,
        (authenticate verify h = .unauthorized missingTokenResponse ↔
          (h = none ∨ h = some "" ∨ h = some ("Bearer ")))) := by
  refine ⟨?_, ?_, ?_⟩
  · simp [extractToken, hne, hnb]
  · intro payload hp
    simp [authenticate, extractToken, hne, hnb, hp]
  · intro h
    constructor
    · intro hm
      cases h with
      | none => exact Or.inl rfl
      | some s2 =>
          by_cases h2 : s2 = ""
          · exact Or.inr (Or.inl (by rw [h2]))
          · obtain ⟨tok, htok⟩ : ∃ tok, extractToken (some s2) = some tok := by
              simp only [extractToken, if_neg h2]
              split
              · exact ⟨_, rfl⟩
              · exact ⟨_, rfl⟩
            simp only [authenticate, htok] at hm
            by_cases ht0 : tok = ""
            · have hs2 : s2 = ("Bearer ") := by
                simp only [extractToken, if_neg h2] at htok
                split at htok
                · rename_i hb
                  refine bearer_header_of_empty_drop hb ?_
                  have hdt := Option.some.inj htok
                  rw [hdt]; exact ht0
                · exact absurd ((Option.some.inj htok).trans ht0) h2
              exact Or.inr (Or.inr (by rw [hs2]))
            · exfalso
              rw [if_neg ht0] at hm
              cases hv : verify tok with
              | error e =>
                  rw [hv] at hm
                  simp [invalidTokenResponse, missingTokenResponse] at hm
              | ok payload =>
                  rw [hv] at hm
                  simp at hm
    · intro hor
      rcases hor with hn | hy | hz
      · rw [hn]; rfl
      · rw [hy]; rfl
      · rw [hz]; rfl

/-- Witness for authenticate_bare_header with a concrete bare token and
an always-accepting verifier. -/
theorem authenticate_bare_header_witness :
    extractToken (some "raw-token") = some "raw-token"
    ∧ (∀ payload,
        (fun _ => Except.ok (⟨uuidA, "a@b.co", .developer, "UTC", uuidB, 0, 9⟩ : JWTPayload) :
          String → Except String JWTPayload) "raw-token" = .ok payload →
        authenticate (fun _ => Except.ok (⟨uuidA, "a@b.co", .developer, "UTC", uuidB, 0, 9⟩ : JWTPayload))
          (some "raw-token")
          = .authed ⟨payload.userId, payload.email, payload.role,
                     payload.timezone, payload.sessionId⟩)
    ∧ (∀ h : Option String,
        (authenticate (fun _ => Except.ok (⟨uuidA, "a@b.co", .developer, "UTC", uuidB, 0, 9⟩ : JWTPayload)) h
            = .unauthorized missingTokenResponse ↔
          (h = none ∨ h = some "" ∨ h = some ("Bearer ")))) :=
  authenticate_bare_header
    (fun _ => Except.ok (⟨uuidA, "a@b.co", .developer, "UTC", uuidB, 0, 9⟩ : JWTPayload))
    ("raw-token") (by decide) (by decide)

/-- Counterexample to C10 as stated: a request whose Authorization
header is present but empty is answered 401 MISSING_TOKEN even though
the header is not absent, because the falsy check !authHeader also
fires on the empty string. -/
theorem empty_header_missing_token :
    authenticate (fun _ => Except.error ("Invalid access token")) (some "")
      = .unauthorized missingTokenResponse
    ∧ (some "" : Option String) ≠ none :=
  ⟨rfl, by decide⟩

/-- First attempt of a client (no live entry): allowed, window opened
with count 1. -/
lemma rlCheck_first (A W : Nat) (m : RateMap) (c : String) (t : Nat)
    (h : m c = none) :
    (authRateLimitCheck A W m c t).1 = .allow ∧
    (authRateLimitCheck A W m c t).2 c = some ⟨1, t + W⟩ := by
  simp [authRateLimitCheck, rlCleanup, h]

/-- In-window attempt below the limit: allowed, count incremented. -/
lemma rlCheck_incr (A W : Nat) (m : RateMap) (c : String) (t n R : Nat)
    (h : m c = some ⟨n, R⟩) (hle : t ≤ R) (hlt : n < A) :
    (authRateLimitCheck A W m c t).1 = .allow ∧
    (authRateLimitCheck A W m c t).2 c = some ⟨n + 1, R⟩ := by
  simp [authRateLimitCheck, rlCleanup, h, Nat.not_lt.mpr hle, Nat.not_le.mpr hlt]

/-- In-window attempt at the limit: rejected with the ceiling formula,
entry unchanged. -/
lemma rlCheck_reject (A W : Nat) (m : RateMap) (c : String) (t n R : Nat)
    (h : m c = some ⟨n, R⟩) (hle : t ≤ R) (hge : A ≤ n) :
    (authRateLimitCheck A W m c t).1 = .reject ((R - t + 999) / 1000) ∧
    (authRateLimitCheck A W m c t).2 c = some ⟨n, R⟩ := by
  simp [authRateLimitCheck, rlCleanup, h, Nat.not_lt.mpr hle, hge]

/-- Attempt after the window has passed: the sweep discards the entry, a
fresh window of count 1 opens, allowed. -/
lemma rlCheck_after (A W : Nat) (m : RateMap) (c : String) (t n R : Nat)
    (h : m c = some ⟨n, R⟩) (hgt : R < t) :
    (authRateLimitCheck A W m c t).1 = .allow ∧
    (authRateLimitCheck A W m c t).2 c = some ⟨1, t + W⟩ := by
  simp [authRateLimitCheck, rlCleanup, h, hgt]

/-- rlRun distributes over list append. -/
lemma rlRun_append (A W : Nat) (c : String) (xs ys : List Nat) (m : RateMap) :
    rlRun A W c (xs ++ ys) m
      = ((rlRun A W c xs m).1 ++ (rlRun A W c ys (rlRun A W c xs m).2).1,
         (rlRun A W c ys (rlRun A W c xs m).2).2) := by
  induction xs generalizing m with
  | nil => simp [rlRun]
  | cons t ts ih => simp [rlRun, ih]

/-- Once the count has reached the limit, every further in-window call
is rejected with the ceiling formula and the entry never changes. -/
lemma rlRun_reject_all (A W : Nat) (c : String) (n R : Nat) (hge : A ≤ n) :
    ∀ (ts : List Nat) (m : RateMap), m c = some ⟨n, R⟩ → (∀ t ∈ ts, t ≤ R) →
    (rlRun A W c ts m).1 = ts.map (fun t => .reject ((R - t + 999) / 1000)) ∧
    (rlRun A W c ts m).2 c = some ⟨n, R⟩ := by
  intro ts
  induction ts with
  | nil => intro m hm _; exact ⟨rfl, hm⟩
  | cons t ts ih =>
      intro m hm hts
      obtain ⟨h1, h2⟩ := rlCheck_reject A W m c t n R hm (hts t (List.mem_cons_self t ts)) hge
      obtain ⟨ih1, ih2⟩ := ih _ h2 (fun t2 ht2 => hts t2 (List.mem_cons_of_mem t ht2))
      exact ⟨by simp [rlRun, h1, ih1], by simpa [rlRun] using ih2⟩

/-- The first five calls of a client inside one window are all allowed
and leave the entry at count 5. -/
lemma rlRun_first_five (W : Nat) (c : String) (t1 t2 t3 t4 t5 : Nat)
    (h2 : t2 ≤ t1 + W) (h3 : t3 ≤ t1 + W) (h4 : t4 ≤ t1 + W) (h5 : t5 ≤ t1 + W) :
    (rlRun 5 W c [t1, t2, t3, t4, t5] rlEmpty).1
      = [.allow, .allow, .allow, .allow, .allow]
    ∧ (rlRun 5 W c [t1, t2, t3, t4, t5] rlEmpty).2 c = some ⟨5, t1 + W⟩ := by
  obtain ⟨a1, b1⟩ := rlCheck_first 5 W rlEmpty c t1 rfl
  obtain ⟨a2, b2⟩ := rlCheck_incr 5 W _ c t2 1 (t1 + W) b1 h2 (by omega)
  obtain ⟨a3, b3⟩ := rlCheck_incr 5 W _ c t3 2 (t1 + W) b2 h3 (by omega)
  obtain ⟨a4, b4⟩ := rlCheck_incr 5 W _ c t4 3 (t1 + W) b3 h4 (by omega)
  obtain ⟨a5, b5⟩ := rlCheck_incr 5 W _ c t5 4 (t1 + W) b4 h5 (by omega)
  refine ⟨?_, ?_⟩
  · simp [rlRun, a1, a2, a3, a4, a5]
  · simpa [rlRun] using b5

/-- C1 (amended): for a fixed client with maxAttempts 5, within one
window the 1st to 5th calls are allowed, the 6th and every later call
in the same window are rejected with retryAfter = ceil((windowResetAt -
now) / 1000), which is positive whenever the call happens strictly
before windowResetAt (at now = windowResetAt the call is still rejected
but with retryAfter 0); once now passes windowResetAt the next call is
allowed again with a fresh count of 1. -/
theorem authRateLimit_window (c : String) (W t1 t2 t3 t4 t5 t6 t7 : Nat)
    (later : List Nat)
    (h2 : t2 ≤ t1 + W) (h3 : t3 ≤ t1 + W) (h4 : t4 ≤ t1 + W) (h5 : t5 ≤ t1 + W)
    (h6 : t6 ≤ t1 + W) (hlater : ∀ t ∈ later, t ≤ t1 + W) (h7 : t1 + W < t7) :
    (rlRun 5 W c ([t1, t2, t3, t4, t5] ++ ((t6 :: later) ++ [t7])) rlEmpty).1
      = [.allow, .allow, .allow, .allow, .allow]
        ++ (((t6 :: later).map (fun t => .reject ((t1 + W - t + 999) / 1000))) ++ [.allow])
    ∧ (t6 < t1 + W → 0 < (t1 + W - t6 + 999) / 1000)
    ∧ (rlRun 5 W c ([t1, t2, t3, t4, t5] ++ ((t6 :: later) ++ [t7])) rlEmpty).2 c
        = some ⟨1, t7 + W⟩ := by
  obtain ⟨hA, hB⟩ := rlRun_first_five W c t1 t2 t3 t4 t5 h2 h3 h4 h5
  rw [rlRun_append, rlRun_append]
  set m5 := (rlRun 5 W c [t1, t2, t3, t4, t5] rlEmpty).2 with hm5
  obtain ⟨hC, hD⟩ := rlRun_reject_all 5 W c 5 (t1 + W) (le_refl 5) (t6 :: later) m5 hB
    (by
      intro t ht
      rcases List.mem_cons.mp ht with h | h
      · subst h; exact h6
      · exact hlater t h)
  set mL := (rlRun 5 W c (t6 :: later) m5).2 with hmL
  obtain ⟨hE, hF⟩ := rlCheck_after 5 W mL c t7 5 (t1 + W) hD h7
  refine ⟨?_, ?_, ?_⟩
  · rw [hA, hC]
    simp only [rlRun]
    rw [hE]
  · intro hlt
    have h1000 : 1 * 1000 ≤ t1 + W - t6 + 999 := by omega
    exact (Nat.le_div_iff_mul_le (by omega)).mpr h1000
  · simp only [rlRun]
    exact hF

/-- Witness for authRateLimit_window at concrete times in a 15 minute
window. -/
theorem authRateLimit_window_witness :
    (rlRun 5 900000 "c" ([0, 1, 2, 3, 4] ++ ((5 :: [6, 7]) ++ [900001])) rlEmpty).1
      = [.allow, .allow, .allow, .allow, .allow]
        ++ (((5 :: [6, 7]).map (fun t => .reject ((0 + 900000 - t + 999) / 1000))) ++ [.allow])
    ∧ (5 < 0 + 900000 → 0 < (0 + 900000 - 5 + 999) / 1000)
    ∧ (rlRun 5 900000 "c" ([0, 1, 2, 3, 4] ++ ((5 :: [6, 7]) ++ [900001])) rlEmpty).2 "c"
        = some ⟨1, 900001 + 900000⟩ :=
  authRateLimit_window "c" 900000 0 1 2 3 4 5 900001 [6, 7]
    (by decide) (by decide) (by decide) (by decide) (by decide)
    (by decide) (by decide)

/-- Counterexample to C1 as stated: with the default 15 minute window,
six calls at time 0 then a seventh at exactly now = windowResetAt =
900000. The seventh call is still inside the window by the code (the
sweep and reset both require now strictly greater than resetTime), so
it is rejected, but its retryAfter is ceil((900000 - 900000) / 1000) =
0, contradicting the claimed retryAfter greater than 0 for every
rejected call in the window. -/
theorem authRateLimit_boundary_retryAfter_zero :
    (rlRun 5 900000 "c" [0, 0, 0, 0, 0, 0, 900000] rlEmpty).1
      = [.allow, .allow, .allow, .allow, .allow, .reject 900, .reject 0]
    ∧ (900000 : Nat) ≤ 0 + 900000 := by
  constructor
  · decide
  · decide

/-- C3 (amended): refreshing a valid refresh token of an existing
active user succeeds and the new access and refresh tokens carry the
same sessionId as the presented token; refreshing again with the
rotated token succeeds and still reports that sessionId. The rotated
refresh token differs from the presented one whenever the refresh
happens at a different signing second than the presented token's iat;
signing is deterministic, so a refresh within the same second
reproduces the identical token. -/
theorem refresh_rotation (svc : AuthService) (store : UserStore) (R1 : Token)
    (rp : RefreshTokenPayload) (u : DBUser) (t1 t2 : Nat)
    (hsec : R1.secret = svc.JWT_REFRESH_SECRET)
    (hparse : RefreshTokenPayloadSchemaParse R1.payload = some rp)
    (hexp1 : t1 < rp.exp)
    (huser : findById store rp.userId = some u)
    (hact : u.is_active = true)
    (hexp2 : t2 < t1 + svc.JWT_REFRESH_EXPIRES_IN) :
    refreshTokenOp svc store R1 t1
      = .ok (generateTokens svc ⟨u.id, u.email, u.role, u.timezone, rp.sessionId⟩ false t1)
    ∧ (generateTokens svc ⟨u.id, u.email, u.role, u.timezone, rp.sessionId⟩
        false t1).accessToken.payload.sessionId = some rp.sessionId
    ∧ (generateTokens svc ⟨u.id, u.email, u.role, u.timezone, rp.sessionId⟩
        false t1).refreshToken.payload.sessionId = some rp.sessionId
    ∧ (rp.iat ≠ t1 →
        (generateTokens svc ⟨u.id, u.email, u.role, u.timezone, rp.sessionId⟩
          false t1).refreshToken ≠ R1)
    ∧ refreshTokenOp svc store
        (generateTokens svc ⟨u.id, u.email, u.role, u.timezone, rp.sessionId⟩
          false t1).refreshToken t2
      = .ok (generateTokens svc ⟨u.id, u.email, u.role, u.timezone, rp.sessionId⟩ false t2)
    ∧ (generateTokens svc ⟨u.id, u.email, u.role, u.timezone, rp.sessionId⟩
        false t2).accessToken.payload.sessionId = some rp.sessionId := by
  obtain ⟨hiU, hiS, hiV, hiI, hiE, huU, huS⟩ := refreshParse_inv hparse
  have hid : u.id = rp.userId := findById_id huser
  refine ⟨?_, ?_, ?_, ?_, ?_, ?_⟩
  · simp [refreshTokenOp, verifyRefreshClaims, jwtVerify, hsec, hiE,
          Nat.not_le.mpr hexp1, hparse, huser, hact]
  · simp [generateTokens, jwtSign]
  · simp [generateTokens, jwtSign]
  · intro hne heq
    have hiat : (generateTokens svc ⟨u.id, u.email, u.role, u.timezone, rp.sessionId⟩
        false t1).refreshToken.payload.iat = R1.payload.iat := by rw [heq]
    rw [hiI] at hiat
    simp only [generateTokens, jwtSign] at hiat
    exact hne (Option.some.inj hiat).symm
  · simp [refreshTokenOp, verifyRefreshClaims, jwtVerify, generateTokens, jwtSign,
          RefreshTokenPayloadSchemaParse, Nat.not_le.mpr hexp2, hid, huU, huS,
          huser, hact]
  · simp [generateTokens, jwtSign]

/-- Witness for refresh_rotation at a concrete refresh token of alice,
refreshed at seconds 2000 and 3000. -/
theorem refresh_rotation_witness :
    refreshTokenOp wSvc [alice]
        (jwtSign { userId := some uuidA, sessionId := some uuidB, tokenVersion := some 1,
                   iat := some 1000, exp := some 700000 } ("refresh-secret")) 2000
      = .ok (generateTokens wSvc ⟨alice.id, alice.email, alice.role, alice.timezone, uuidB⟩ false 2000)
    ∧ (generateTokens wSvc ⟨alice.id, alice.email, alice.role, alice.timezone, uuidB⟩
        false 2000).accessToken.payload.sessionId = some uuidB
    ∧ (generateTokens wSvc ⟨alice.id, alice.email, alice.role, alice.timezone, uuidB⟩
        false 2000).refreshToken.payload.sessionId = some uuidB
    ∧ ((1000 : Nat) ≠ 2000 →
        (generateTokens wSvc ⟨alice.id, alice.email, alice.role, alice.timezone, uuidB⟩
          false 2000).refreshToken
          ≠ jwtSign { userId := some uuidA, sessionId := some uuidB, tokenVersion := some 1,
                      iat := some 1000, exp := some 700000 } ("refresh-secret"))
    ∧ refreshTokenOp wSvc [alice]
        (generateTokens wSvc ⟨alice.id, alice.email, alice.role, alice.timezone, uuidB⟩
          false 2000).refreshToken 3000
      = .ok (generateTokens wSvc ⟨alice.id, alice.email, alice.role, alice.timezone, uuidB⟩ false 3000)
    ∧ (generateTokens wSvc ⟨alice.id, alice.email, alice.role, alice.timezone, uuidB⟩
        false 3000).accessToken.payload.sessionId = some uuidB :=
  refresh_rotation wSvc [alice]
    (jwtSign { userId := some uuidA, sessionId := some uuidB, tokenVersion := some 1,
               iat := some 1000, exp := some 700000 } ("refresh-secret"))
    ⟨uuidA, uuidB, 1, 1000, 700000⟩ alice 2000 3000
    rfl (by decide) (by decide) (by decide) rfl (by decide)

/-- Counterexample to C3 as stated: a refresh performed at the same
signing second (1000) as the presented refresh token's iat succeeds but
returns a refresh token byte-identical to the presented one, because
HS256 signing of the identical payload under the identical secret is
deterministic; so the rotated token R2 is NOT always different from
R1. -/
theorem refresh_same_second_token_unchanged :
    refreshTokenOp wSvc [alice] rotTok0.refreshToken 1000
      = .ok (generateTokens wSvc ⟨alice.id, alice.email, alice.role, alice.timezone, uuidB⟩ false 1000)
    ∧ (generateTokens wSvc ⟨alice.id, alice.email, alice.role, alice.timezone, uuidB⟩
        false 1000).refreshToken = rotTok0.refreshToken :=
  ⟨rfl, rfl⟩

end CollabSpec
